import Mathlib

/-!
Verification of the puerto-rico-migration repository's download and
visualization scripts.

The repository is a collection of straight-line Python scripts following one
pattern: iterate over a year range, fetch a JSON matrix from the Census API,
parse it into a data frame, compute derived rate columns, and write a CSV;
visualization scripts read CSVs and write HTML charts.  This file embeds the
parts of that code the verified properties depend on:

* numeric semantics of the pandas rate computations, including IEEE-style
  division by zero (`PVal`);
* the JSON-matrix-to-table parsing step shared by all download scripts;
* the per-year loop of each download script, modelled as a fold over the year
  list against an abstract fetch oracle, with the per-year data transformation
  abstracted as a function parameter (the scripts differ only in that body);
* the polling loop of the IPUMS download script, including its early `return`;
* the input-file guards of the visualization scripts;
* the state-abbreviation preprocessing of `generate_map`;
* the `weighted_median` helper of `download_ipums_pr_specific_data.py`.
-/

/-! ## Rounding

`Series.round(2)` in pandas rounds to 2 decimal places using IEEE
round-half-to-even.  `roundHalfEven q` is the integer nearest to `q`, ties to
the even integer; `round2Q` scales by 100. -/

/-- Round a rational to the nearest integer, ties to even
(the rounding mode used by `numpy.round` / pandas `Series.round`). -/
def roundHalfEven (q : ℚ) : ℤ :=
  if q - ⌊q⌋ < 1/2 then ⌊q⌋
  else if 1/2 < q - ⌊q⌋ then ⌊q⌋ + 1
  else if 2 ∣ ⌊q⌋ then ⌊q⌋ else ⌊q⌋ + 1

/-- `x.round(2)` on an exact rational: round `x * 100` to the nearest integer
(ties to even) and scale back. -/
def round2Q (q : ℚ) : ℚ := (roundHalfEven (q * 100) : ℚ) / 100

/-! ## Pandas numeric values

After `pd.to_numeric(..., errors='coerce')` a cell is either a number or NaN;
arithmetic follows IEEE-754 semantics: division by zero produces a signed
infinity (or NaN for 0/0) rather than raising, and NaN propagates.  `PVal`
models such a cell value: `num q` a finite number (kept exact as a rational),
`inf true` = +∞, `inf false` = −∞, `nan` = NaN. -/

inductive PVal where
  | nan : PVal
  | inf : Bool → PVal
  | num : ℚ → PVal
deriving DecidableEq

namespace PVal

/-- IEEE division on pandas cell values: `a / 0` is `±∞` for `a ≠ 0` and NaN
for `0 / 0`; NaN propagates. -/
def div : PVal → PVal → PVal
  | nan, _ => nan
  | inf _, nan => nan
  | num _, nan => nan
  | num a, num b =>
      if b = 0 then (if a = 0 then nan else if 0 < a then inf true else inf false)
      else num (a / b)
  | num _, inf _ => num 0
  | inf s, num b => if 0 ≤ b then inf s else inf (!s)
  | inf _, inf _ => nan

/-- IEEE multiplication on pandas cell values. -/
def mul : PVal → PVal → PVal
  | nan, _ => nan
  | inf _, nan => nan
  | num _, nan => nan
  | num a, num b => num (a * b)
  | inf s, num b => if b = 0 then nan else if 0 < b then inf s else inf (!s)
  | num a, inf s => if a = 0 then nan else if 0 < a then inf s else inf (!s)
  | inf s, inf t => inf (s == t)

/-- IEEE subtraction on pandas cell values. -/
def sub : PVal → PVal → PVal
  | nan, _ => nan
  | inf _, nan => nan
  | num _, nan => nan
  | num a, num b => num (a - b)
  | inf s, num _ => inf s
  | num _, inf s => inf (!s)
  | inf s, inf t => if s = t then nan else inf s

/-- `Series.round(2)`: rounds finite values to 2 decimals, leaves NaN and
infinities unchanged. -/
def round2 : PVal → PVal
  | num q => num (round2Q q)
  | nan => nan
  | inf s => inf s

end PVal

/-- The rate-column formula `(numerator / denominator * 100).round(2)` shared
verbatim by the download scripts (`download_poverty_data.py` line 58,
`download_commuting_data.py` lines 84–88, `download_language_data.py`
lines 84–86, `download_year_of_arrival_data.py` lines 66–68). -/
def rateFrom (n d : PVal) : PVal := PVal.round2 ((n.div d).mul (PVal.num 100))

/-- `df['poverty_rate'] = (df['B17001_002E'] / df['B17001_001E'] * 100).round(2)`
(`download_poverty_data.py` line 58). -/
def poverty_rate (below total : PVal) : PVal := rateFrom below total

/-- `download_language_data.py` line 84. -/
def english_only_rate (englishOnly total : PVal) : PVal := rateFrom englishOnly total

/-- `download_language_data.py` line 85; the numerator is the computed
`speaks_spanish` column. -/
def spanish_speaking_rate (speaksSpanish total : PVal) : PVal := rateFrom speaksSpanish total

/-- `download_language_data.py` line 86; the numerator is the computed
`limited_english_proficiency` column. -/
def limited_english_rate (limited total : PVal) : PVal := rateFrom limited total

/-- `download_commuting_data.py` line 84. -/
def drove_alone_rate (droveAlone total : PVal) : PVal := rateFrom droveAlone total

/-- `download_commuting_data.py` line 85. -/
def carpooled_rate (carpooled total : PVal) : PVal := rateFrom carpooled total

/-- `download_commuting_data.py` line 86. -/
def public_transit_rate (publicTransit total : PVal) : PVal := rateFrom publicTransit total

/-- `download_commuting_data.py` line 87. -/
def walked_rate (walked total : PVal) : PVal := rateFrom walked total

/-- `download_commuting_data.py` line 88. -/
def worked_from_home_rate (workedFromHome total : PVal) : PVal := rateFrom workedFromHome total

/-- `download_year_of_arrival_data.py` lines 65–66:
`moved_total = B07001_001E - B07001_002E` then
`migration_rate = (moved_total / B07001_001E * 100).round(2)`. -/
def migration_rate (total sameHouse : PVal) : PVal := rateFrom (total.sub sameHouse) total

/-! ## JSON-matrix parsing

Every Census download script parses the API response the same way
(`download_census_data.py` lines 35–45, `download_poverty_data.py`
lines 41–51):

    data = response.json()
    headers = data[0]
    rows = data[1:]
    df = pd.DataFrame(rows, columns=headers)
    df['year'] = year

`data[0]` on an empty array raises `IndexError`, and
`pd.DataFrame(rows, columns=headers)` raises `ValueError` when a row's length
does not match the header; both are caught by the scripts' blanket
`except Exception`.  `parseTable` returns `none` in exactly those cases. -/

/-- A data-frame cell: a string straight from the JSON matrix, or the integer
`year` value assigned by `df['year'] = year`. -/
inductive Cell where
  | s : String → Cell
  | n : ℕ → Cell
deriving DecidableEq

/-- A data frame: column names plus rows of cells. -/
structure Table where
  header : List String
  rows : List (List Cell)
deriving DecidableEq

/-- `headers = data[0]; rows = data[1:]; pd.DataFrame(rows, columns=headers);
df['year'] = year`.  `none` models the caught `IndexError` (empty response) or
`ValueError` (ragged row). -/
def parseTable (json : List (List String)) (year : ℕ) : Option Table :=
  match json with
  | [] => none
  | h :: rs =>
    if rs.all (fun r => r.length = h.length) then
      some { header := h ++ ["year"],
             rows := rs.map (fun r => r.map Cell.s ++ [Cell.n year]) }
    else none

/-- The `(year, geography)` key of each output row of
`download_census_data.py`: the header is `NAME,B03001_005E,state`, so the
geography code is the row entry at index 2, and the year column is the
requested year in every row. -/
def censusRowKeys (json : List (List String)) (year : ℕ) : List (ℕ × Option String) :=
  json.tail.map (fun r => (year, r.get? 2))

/-! ## Filesystem model and the per-year download loop

A filesystem maps paths to file contents.  Each download script is a single
`for year in years:` loop; each iteration optionally checks whether the output
file exists (`download_county_data.py` lines 22–25, `download_commuting_data.py`
lines 43–47, `download_language_data.py` lines 43–47 — the state-level
`download_census_data.py` and `download_poverty_data.py` have no such check),
issues one HTTP GET, and inside a `try`/`except` block parses the response,
builds the output table and writes it.  Any exception is caught and printed
and the loop moves to the next year.

The HTTP fetch is an oracle `fetch : ℕ → Except String (List (List String))`
(`.error` = a raised `requests` exception).  The pure data transformation
applied to a successfully fetched matrix (parsing, rate columns, `to_csv`
serialization) differs between scripts and is irrelevant to the loop-level
properties, so it is a function parameter
`process : List (List String) → ℕ → Option String` returning the CSV text to
write, with `none` modelling an exception raised while processing (also
caught).  The second component of the state is the list of years for which an
HTTP request has been issued, in order. -/

/-- A filesystem: path → contents. -/
def FS : Type := String → Option String

/-- Writing a file. -/
def fsWrite (fs : FS) (p c : String) : FS :=
  fun q => if q = p then some c else fs q

/-- `years = range(2010, 2024)` — the year range shared by the Census
download scripts. -/
def censusYears : List ℕ := List.range' 2010 14

/-- One iteration of a download loop *without* an existence check
(`download_census_data.py` lines 23–61, `download_poverty_data.py`
lines 31–77): issue the request, and on any failure leave the filesystem
unchanged. -/
def uncheckedYearStep (outFile : ℕ → String)
    (process : List (List String) → ℕ → Option String)
    (fetch : ℕ → Except String (List (List String)))
    (y : ℕ) (st : FS × List ℕ) : FS × List ℕ :=
  match fetch y with
  | .error _ => (st.1, st.2 ++ [y])
  | .ok json =>
    match process json y with
    | none => (st.1, st.2 ++ [y])
    | some out => (fsWrite st.1 (outFile y) out, st.2 ++ [y])

/-- One iteration of a download loop *with* the
`if os.path.exists(output_file): continue` guard
(`download_county_data.py`, `download_commuting_data.py`,
`download_language_data.py`): when the output file already exists the
iteration issues no request and changes nothing. -/
def checkedYearStep (outFile : ℕ → String)
    (process : List (List String) → ℕ → Option String)
    (fetch : ℕ → Except String (List (List String)))
    (y : ℕ) (st : FS × List ℕ) : FS × List ℕ :=
  if (st.1 (outFile y)).isSome then st
  else uncheckedYearStep outFile process fetch y st

/-- The `for year in years:` loop, recording issued requests. -/
def scriptRun (step : ℕ → FS × List ℕ → FS × List ℕ) (years : List ℕ) (fs : FS) :
    FS × List ℕ :=
  years.foldl (fun st y => step y st) (fs, [])

/-- Output path of `download_poverty_data.py` (line 67). -/
def povertyOutFile (y : ℕ) : String :=
  "data/census_acs5_poverty/acs5_poverty_" ++ toString y ++ ".csv"

/-- Output path of `download_census_data.py` (line 48). -/
def censusOutFile (y : ℕ) : String :=
  "data/census_acs5/acs5_puerto_rican_pop_" ++ toString y ++ ".csv"

/-- Output path of `download_county_data.py` (line 22). -/
def countyOutFile (y : ℕ) : String :=
  "data/census_acs5_county/acs5_puerto_rican_pop_county_" ++ toString y ++ ".csv"

/-- Output path of `download_commuting_data.py` (line 43). -/
def commutingOutFile (y : ℕ) : String :=
  "data/census_acs5_commuting/acs5_commuting_" ++ toString y ++ ".csv"

/-- Output path of `download_language_data.py` (line 43). -/
def languageOutFile (y : ℕ) : String :=
  "data/census_acs5_language/acs5_language_" ++ toString y ++ ".csv"

/-- Output path of `download_health_insurance_data.py` (line 40). -/
def healthInsuranceOutFile (y : ℕ) : String :=
  "data/census_acs5_health_insurance/acs5_health_insurance_" ++ toString y ++ ".csv"

/-- The whole `download_poverty_data` year loop. -/
def povertyRun (process : List (List String) → ℕ → Option String)
    (fetch : ℕ → Except String (List (List String))) (fs : FS) : FS × List ℕ :=
  scriptRun (uncheckedYearStep povertyOutFile process fetch) censusYears fs

/-- The whole `download_census_data` year loop. -/
def censusRun (process : List (List String) → ℕ → Option String)
    (fetch : ℕ → Except String (List (List String))) (fs : FS) : FS × List ℕ :=
  scriptRun (uncheckedYearStep censusOutFile process fetch) censusYears fs

/-- The whole `download_county_data` year loop. -/
def countyRun (process : List (List String) → ℕ → Option String)
    (fetch : ℕ → Except String (List (List String))) (fs : FS) : FS × List ℕ :=
  scriptRun (checkedYearStep countyOutFile process fetch) censusYears fs

/-- The whole `download_commuting_data` year loop. -/
def commutingRun (process : List (List String) → ℕ → Option String)
    (fetch : ℕ → Except String (List (List String))) (fs : FS) : FS × List ℕ :=
  scriptRun (checkedYearStep commutingOutFile process fetch) censusYears fs

/-- The whole `download_language_data` year loop. -/
def languageRun (process : List (List String) → ℕ → Option String)
    (fetch : ℕ → Except String (List (List String))) (fs : FS) : FS × List ℕ :=
  scriptRun (checkedYearStep languageOutFile process fetch) censusYears fs

/-- The whole `download_health_insurance_data` year loop (same
existence-checked pattern, `download_health_insurance_data.py` lines 39–44). -/
def healthInsuranceRun (process : List (List String) → ℕ → Option String)
    (fetch : ℕ → Except String (List (List String))) (fs : FS) : FS × List ℕ :=
  scriptRun (checkedYearStep healthInsuranceOutFile process fetch) censusYears fs

/-! ## The IPUMS download loop

`download_ipums_data.py` lines 74–135 iterate over `samples_config`
(years 1960, 1970, 1980).  Each iteration submits an extract inside a
`try`/`except Exception` block, then polls `extract_status` while
`wait_time < 300` in steps of 10 seconds (at most 30 polls): `'completed'`
breaks out of the polling loop, `'failed'` prints and **returns from the whole
function**, a timeout `continue`s to the next year; then the extract is
downloaded and processed, any exception being caught and the loop
`continue`d. -/

/-- Result of the `while wait_time < max_wait` polling loop. -/
inductive PollResult where
  | completed : PollResult
  | failed : PollResult
  | timeout : PollResult
deriving DecidableEq

/-- The polling loop over the sequence of statuses the server returns. -/
def pollLoop : List String → PollResult
  | [] => .timeout
  | s :: rest =>
    if s = "completed" then .completed
    else if s = "failed" then .failed
    else pollLoop rest

/-- Oracle for the IPUMS API interactions of one run: extract submission,
the status sequence a year's polling would observe, extract download, and
`process_ipums_data` (each `.error` models a raised exception). -/
structure IpumsOracle where
  submit : ℕ → Except String Unit
  statuses : ℕ → List String
  download : ℕ → Except String Unit
  processData : ℕ → Except String Unit

/-- What one iteration of the IPUMS loop does for its year. -/
inductive YearOutcome where
  | done : YearOutcome
  | skipped : YearOutcome
  | aborted : YearOutcome
deriving DecidableEq

/-- One iteration of the `for year, config in samples_config.items():` loop:
exceptions and timeouts skip the year; an extract status of `'failed'`
executes `return`, aborting the whole function. -/
def ipumsYearOutcome (oc : IpumsOracle) (y : ℕ) : YearOutcome :=
  match oc.submit y with
  | .error _ => .skipped
  | .ok _ =>
    match pollLoop ((oc.statuses y).take 30) with
    | .failed => .aborted
    | .timeout => .skipped
    | .completed =>
      match oc.download y with
      | .error _ => .skipped
      | .ok _ =>
        match oc.processData y with
        | .error _ => .skipped
        | .ok _ => .done

/-- `samples_config` keys in insertion order. -/
def ipumsYears : List ℕ := [1960, 1970, 1980]

/-- The IPUMS loop: an `aborted` year terminates the whole run (the `return`
at line 107), so later years are never attempted. -/
def ipumsGo (oc : IpumsOracle) : List ℕ → List (ℕ × YearOutcome)
  | [] => []
  | y :: rest =>
    match ipumsYearOutcome oc y with
    | .aborted => [(y, .aborted)]
    | o => (y, o) :: ipumsGo oc rest

/-- A full run of `download_ipums_data`, listing the years reached by the loop
with their outcomes. -/
def ipumsRun (oc : IpumsOracle) : List (ℕ × YearOutcome) := ipumsGo oc ipumsYears

/-! ## Visualization scripts: input-file guards

Modelled at the level the error-handling property lives at: whether each
function checks its inputs before reading, and what it writes.  The plotting
pipeline itself is abstracted as a `render` function parameter; `.error`
models an uncaught Python exception escaping the function. -/

/-- `generate_map` (`generate_map.py`): globs `data/census_acs5/*.csv`
(`csvFiles` is the glob result, whose files exist), and when nothing was
loaded prints `"No data found in data/census_acs5/"` and returns; otherwise
writes `docs/graph7_map.html`. -/
def generateMap (render : List String → String) (csvFiles : List String)
    (fs : FS) : Except String FS :=
  match csvFiles.filterMap fs with
  | [] => .ok fs
  | dfList => .ok (fsWrite fs "docs/graph7_map.html" (render dfList))

/-- `generate_migration_economic_correlation`
(`generate_new_data_visualizations.py` lines 298–316): returns after printing
a message when `pr_economic_combined.csv` does not exist or when the glob for
`acs5_puerto_rican_pop_*.csv` files (`popFiles`) is empty; otherwise writes
`docs/graph_migration_economic_correlation.html`. -/
def generateMigrationEconomicCorrelation (render : String → List String → String)
    (popFiles : List String) (fs : FS) : Except String FS :=
  match fs "data/puerto_rico_economic/pr_economic_combined.csv" with
  | none => .ok fs
  | some econ =>
    if popFiles = [] then .ok fs
    else .ok (fsWrite fs "docs/graph_migration_economic_correlation.html"
      (render econ (popFiles.filterMap fs)))

/-- `generate_population_pyramid` (`generate_improved_visualizations.py`
lines 209–313): calls `pd.read_csv('data/usa_00001.csv')` with no existence
check and no `try`/`except`; a missing input raises `FileNotFoundError`,
which propagates out of the function.  On success it writes
`docs/graph_population_pyramid.html`. -/
def generatePopulationPyramid (render : String → String) (fs : FS) :
    Except String FS :=
  match fs "data/usa_00001.csv" with
  | none => .error "FileNotFoundError"
  | some content =>
    .ok (fsWrite fs "docs/graph_population_pyramid.html" (render content))

/-! ## `generate_map` preprocessing (`generate_map.py` lines 21–53) -/

/-- The fixed state-name → abbreviation dictionary of `generate_map.py`
lines 31–43 (50 states, the District of Columbia, and Puerto Rico). -/
def us_state_to_abbrev : List (String × String) :=
  [("Alabama", "AL"), ("Alaska", "AK"), ("Arizona", "AZ"), ("Arkansas", "AR"),
   ("California", "CA"), ("Colorado", "CO"), ("Connecticut", "CT"),
   ("Delaware", "DE"), ("Florida", "FL"), ("Georgia", "GA"), ("Hawaii", "HI"),
   ("Idaho", "ID"), ("Illinois", "IL"), ("Indiana", "IN"), ("Iowa", "IA"),
   ("Kansas", "KS"), ("Kentucky", "KY"), ("Louisiana", "LA"), ("Maine", "ME"),
   ("Maryland", "MD"), ("Massachusetts", "MA"), ("Michigan", "MI"),
   ("Minnesota", "MN"), ("Mississippi", "MS"), ("Missouri", "MO"),
   ("Montana", "MT"), ("Nebraska", "NE"), ("Nevada", "NV"),
   ("New Hampshire", "NH"), ("New Jersey", "NJ"), ("New Mexico", "NM"),
   ("New York", "NY"), ("North Carolina", "NC"), ("North Dakota", "ND"),
   ("Ohio", "OH"), ("Oklahoma", "OK"), ("Oregon", "OR"), ("Pennsylvania", "PA"),
   ("Rhode Island", "RI"), ("South Carolina", "SC"), ("South Dakota", "SD"),
   ("Tennessee", "TN"), ("Texas", "TX"), ("Utah", "UT"), ("Vermont", "VT"),
   ("Virginia", "VA"), ("Washington", "WA"), ("West Virginia", "WV"),
   ("Wisconsin", "WI"), ("Wyoming", "WY"), ("District of Columbia", "DC"),
   ("Puerto Rico", "PR")]

/-- A row of the concatenated census frame after the renaming
`{'B03001_005E': 'Population', 'NAME': 'State', 'year': 'Year'}`. -/
structure MapRow where
  State : String
  Population : ℤ
  Year : ℤ
deriving DecidableEq

/-- `full_df['StateCode'] = full_df['State'].map(us_state_to_abbrev)` —
`none` is the NaN produced for an unmapped state name. -/
def stateCode (r : MapRow) : Option String := us_state_to_abbrev.lookup r.State

/-- Row ordering used by `map_df.sort_values('Year')`. -/
def mapYearLE (a b : MapRow) : Prop := a.Year ≤ b.Year

instance : DecidableRel mapYearLE :=
  fun a b => inferInstanceAs (Decidable (a.Year ≤ b.Year))

/-- The frame handed to `px.choropleth`
(`generate_map.py` lines 49–53): drop Puerto Rico rows, drop rows whose
`StateCode` mapping produced NaN, sort by year. -/
def mapDf (rows : List MapRow) : List MapRow :=
  List.insertionSort mapYearLE
    (((rows.filter (fun r => r.State ≠ "Puerto Rico")).filter
      (fun r => (stateCode r).isSome)))

/-! ## `weighted_median` (`download_ipums_pr_specific_data.py` lines 798–811)

The series is a list of `(value, weight)` pairs.  The code sorts by value,
forms cumulative weights, and returns the value at the first index whose
cumulative weight reaches half the total weight. -/

/-- Ordering used by `values.sort_values()`. -/
def valLE (a b : ℚ × ℚ) : Prop := a.1 ≤ b.1

instance : DecidableRel valLE :=
  fun a b => inferInstanceAs (Decidable (a.1 ≤ b.1))

instance : IsTotal (ℚ × ℚ) valLE := ⟨fun a b => le_total a.1 b.1⟩

instance : IsTrans (ℚ × ℚ) valLE := ⟨fun _ _ _ h1 h2 => le_trans h1 h2⟩

/-- `weights.sum()`. -/
def wmTotal (l : List (ℚ × ℚ)) : ℚ := (l.map Prod.snd).sum

/-- Cumulative weight of value `v`: total weight of the entries whose value
is at most `v`. -/
def wmCum (l : List (ℚ × ℚ)) (v : ℚ) : ℚ :=
  ((l.filter (fun p => p.1 ≤ v)).map Prod.snd).sum

/-- `cum_weights[cum_weights >= total_weight / 2].index[0]` walked over the
sorted list with running weight `acc`: the value of the first entry whose
cumulative weight reaches `half`.  `none` models the `IndexError` when no
entry qualifies. -/
def wmFind (half : ℚ) : ℚ → List (ℚ × ℚ) → Option ℚ
  | _, [] => none
  | acc, p :: rest => if half ≤ acc + p.2 then some p.1 else wmFind half (acc + p.2) rest

/-- `weighted_median(values, weights)`: sort by value, then return the first
value whose cumulative weight is at least half the total. -/
def weighted_median (l : List (ℚ × ℚ)) : Option ℚ :=
  wmFind (wmTotal (List.insertionSort valLE l) / 2) 0 (List.insertionSort valLE l)

/-! ## Concrete inputs used by counterexamples and witnesses -/

/-- The empty filesystem: no input file exists. -/
def emptyFS : FS := fun _ => none

/-- A syntactically valid API response carrying the same geography twice. -/
def dupJson : List (List String) :=
  [["NAME", "B03001_005E", "state"], ["Ohio", "5", "39"], ["Ohio", "6", "39"]]

/-- A response with distinct geographies. -/
def goodJson : List (List String) :=
  [["NAME", "B03001_005E", "state"], ["Ohio", "5", "39"], ["Utah", "7", "49"]]

/-- The table `download_census_data` writes for `goodJson` in year 2010. -/
def goodTable : Table :=
  { header := ["NAME", "B03001_005E", "state", "year"],
    rows := [[Cell.s "Ohio", Cell.s "5", Cell.s "39", Cell.n 2010],
             [Cell.s "Utah", Cell.s "7", Cell.s "49", Cell.n 2010]] }

/-- The IPUMS oracle in which every extract immediately reports `'failed'`. -/
def ipumsFailOracle : IpumsOracle :=
  { submit := fun _ => .ok ()
    statuses := fun _ => ["failed"]
    download := fun _ => .ok ()
    processData := fun _ => .ok () }

/-- A fetch oracle that always raises. -/
def errFetch : ℕ → Except String (List (List String)) := fun _ => .error "HTTP Error"

/-- A processing function that always raises. -/
def noneProcess : List (List String) → ℕ → Option String := fun _ _ => none

/-- A filesystem already holding the 2010 output files of the four
existence-checked scripts. -/
def preloadedFS : FS := fun p =>
  if p = countyOutFile 2010 then some "county2010"
  else if p = commutingOutFile 2010 then some "commuting2010"
  else if p = languageOutFile 2010 then some "language2010"
  else if p = healthInsuranceOutFile 2010 then some "health2010"
  else none

/-- Input rows for the C10 witness: a mapped state, an unmapped name, and
Puerto Rico itself. -/
def mapRows0 : List MapRow :=
  [⟨"Ohio", 5, 2010⟩, ⟨"Atlantis", 1, 2010⟩, ⟨"Puerto Rico", 9, 2010⟩]

/-! ## Helper lemmas: rounding bounds -/

/-- Rounding a nonnegative rational to the nearest integer stays nonnegative. -/
lemma roundHalfEven_nonneg (q : ℚ) (h : 0 ≤ q) : 0 ≤ roundHalfEven q := by
  have hf : 0 ≤ ⌊q⌋ := Int.floor_nonneg.mpr h
  unfold roundHalfEven
  split_ifs <;> omega

/-- Rounding cannot jump past an integer upper bound. -/
lemma roundHalfEven_le (q : ℚ) (n : ℤ) (h : q ≤ n) : roundHalfEven q ≤ n := by
  have hfl : ⌊q⌋ ≤ n := by
    have := Int.floor_mono h
    simpa [Int.floor_intCast] using this
  unfold roundHalfEven
  split_ifs with h1 h2 h3
  · exact hfl
  · -- here `1/2 < q - ⌊q⌋`, so `⌊q⌋` is strictly below `n`
    have hq : (⌊q⌋ : ℚ) + 1/2 < (n : ℚ) := by
      have hn : (q : ℚ) ≤ (n : ℚ) := h
      linarith
    have : (⌊q⌋ : ℚ) < (n : ℚ) := by linarith
    have : ⌊q⌋ < n := by exact_mod_cast this
    omega
  · exact hfl
  · -- the tie case: `q - ⌊q⌋ = 1/2`, so again `⌊q⌋ < n`
    have hhalf : q - ⌊q⌋ = 1/2 := le_antisymm (not_lt.mp h2) (not_lt.mp h1)
    have : (⌊q⌋ : ℚ) < (n : ℚ) := by linarith
    have : ⌊q⌋ < n := by exact_mod_cast this
    omega

/-- `x.round(2)` maps `[0, 100]` into `[0, 100]`. -/
lemma round2Q_bounds (q : ℚ) (h0 : 0 ≤ q) (h100 : q ≤ 100) :
    0 ≤ round2Q q ∧ round2Q q ≤ 100 := by
  have ha : 0 ≤ roundHalfEven (q * 100) := roundHalfEven_nonneg _ (by linarith)
  have hb : roundHalfEven (q * 100) ≤ 10000 := by
    apply roundHalfEven_le
    push_cast
    linarith
  have ha' : (0 : ℚ) ≤ (roundHalfEven (q * 100) : ℚ) := by exact_mod_cast ha
  have hb' : (roundHalfEven (q * 100) : ℚ) ≤ 10000 := by exact_mod_cast hb
  unfold round2Q
  constructor <;> linarith

/-- On finite inputs with a nonzero denominator, the rate formula is exact
rational arithmetic followed by rounding. -/
lemma rateFrom_num (a b : ℚ) (hb : b ≠ 0) :
    rateFrom (PVal.num a) (PVal.num b) = PVal.num (round2Q (a / b * 100)) := by
  simp [rateFrom, PVal.div, PVal.mul, PVal.round2, hb]

/-- C1: for every data row with valid inputs (numerator and denominator coerce
to numbers, `0 ≤ numerator ≤ denominator`, `denominator > 0`), every derived
rate column computed as `(numerator / denominator * 100).round(2)` —
`poverty_rate`, the commuting mode-share rates, `english_only_rate`,
`spanish_speaking_rate`, `limited_english_rate` — lies between 0 and 100
inclusive. -/
theorem rate_columns_between_0_and_100 (a b : ℚ)
    (h0 : 0 ≤ a) (hab : a ≤ b) (hb : 0 < b) :
    ∃ q : ℚ, 0 ≤ q ∧ q ≤ 100 ∧
      poverty_rate (PVal.num a) (PVal.num b) = PVal.num q ∧
      english_only_rate (PVal.num a) (PVal.num b) = PVal.num q ∧
      spanish_speaking_rate (PVal.num a) (PVal.num b) = PVal.num q ∧
      limited_english_rate (PVal.num a) (PVal.num b) = PVal.num q ∧
      drove_alone_rate (PVal.num a) (PVal.num b) = PVal.num q ∧
      carpooled_rate (PVal.num a) (PVal.num b) = PVal.num q ∧
      public_transit_rate (PVal.num a) (PVal.num b) = PVal.num q ∧
      walked_rate (PVal.num a) (PVal.num b) = PVal.num q ∧
      worked_from_home_rate (PVal.num a) (PVal.num b) = PVal.num q := by
  have hratio0 : 0 ≤ a / b := div_nonneg h0 hb.le
  have hratio1 : a / b ≤ 1 := (div_le_one hb).mpr hab
  have hv0 : 0 ≤ a / b * 100 := by linarith
  have hv100 : a / b * 100 ≤ 100 := by linarith
  obtain ⟨hq0, hq100⟩ := round2Q_bounds (a / b * 100) hv0 hv100
  have key := rateFrom_num a b hb.ne'
  exact ⟨round2Q (a / b * 100), hq0, hq100,
    by simpa [poverty_rate] using key, by simpa [english_only_rate] using key,
    by simpa [spanish_speaking_rate] using key, by simpa [limited_english_rate] using key,
    by simpa [drove_alone_rate] using key, by simpa [carpooled_rate] using key,
    by simpa [public_transit_rate] using key, by simpa [walked_rate] using key,
    by simpa [worked_from_home_rate] using key⟩

/-- Witness for C1 at numerator 1, denominator 4 (rate `25.00`). -/
theorem rate_columns_between_0_and_100_witness :
    (0:ℚ) ≤ 1 ∧ (1:ℚ) ≤ 4 ∧ (0:ℚ) < 4 ∧
    ∃ q : ℚ, 0 ≤ q ∧ q ≤ 100 ∧
      poverty_rate (PVal.num 1) (PVal.num 4) = PVal.num q ∧
      english_only_rate (PVal.num 1) (PVal.num 4) = PVal.num q ∧
      spanish_speaking_rate (PVal.num 1) (PVal.num 4) = PVal.num q ∧
      limited_english_rate (PVal.num 1) (PVal.num 4) = PVal.num q ∧
      drove_alone_rate (PVal.num 1) (PVal.num 4) = PVal.num q ∧
      carpooled_rate (PVal.num 1) (PVal.num 4) = PVal.num q ∧
      public_transit_rate (PVal.num 1) (PVal.num 4) = PVal.num q ∧
      walked_rate (PVal.num 1) (PVal.num 4) = PVal.num q ∧
      worked_from_home_rate (PVal.num 1) (PVal.num 4) = PVal.num q :=
  ⟨by norm_num, by norm_num, by norm_num,
    rate_columns_between_0_and_100 1 4 (by norm_num) (by norm_num) (by norm_num)⟩

/-- C2 counterexample: a row with denominator 0 and numerator 5 stores `+∞`
(`5 / 0 = inf` in pandas), not NaN. -/
theorem zero_denominator_rate_counterexample :
    poverty_rate (PVal.num 5) (PVal.num 0) = PVal.inf true ∧
    PVal.inf true ≠ PVal.nan := by
  refine ⟨?_, by simp⟩
  norm_num [poverty_rate, rateFrom, PVal.div, PVal.mul, PVal.round2]

/-- C2 (amended): the rate computation on a zero-denominator row never raises:
it yields NaN exactly when the numerator is also zero, and a signed infinity
when the numerator is nonzero.  Similarly for `migration_rate` from
`download_year_of_arrival_data.py`, whose numerator is `total - same_house`. -/
theorem zero_denominator_rate_amended (a b : ℚ) :
    poverty_rate (PVal.num a) (PVal.num 0) =
      (if a = 0 then PVal.nan else if 0 < a then PVal.inf true else PVal.inf false) ∧
    migration_rate (PVal.num 0) (PVal.num b) =
      (if b = 0 then PVal.nan else if 0 < b then PVal.inf false else PVal.inf true) := by
  constructor
  · by_cases ha : a = 0
    · simp [poverty_rate, rateFrom, PVal.div, PVal.mul, PVal.round2, ha]
    · rcases lt_or_gt_of_ne ha with h | h
      · simp [poverty_rate, rateFrom, PVal.div, PVal.mul, PVal.round2, ha, h.not_lt,
          asymm h]
      · simp [poverty_rate, rateFrom, PVal.div, PVal.mul, PVal.round2, ha, h]
  · by_cases hb : b = 0
    · simp [migration_rate, rateFrom, PVal.sub, PVal.div, PVal.mul, PVal.round2, hb]
    · rcases lt_or_gt_of_ne hb with h | h
      · simp [migration_rate, rateFrom, PVal.sub, PVal.div, PVal.mul, PVal.round2, hb,
          h.not_lt, h, neg_pos, zero_sub, neg_eq_zero]
      · simp [migration_rate, rateFrom, PVal.sub, PVal.div, PVal.mul, PVal.round2, hb,
          h.not_lt, h, zero_sub, neg_eq_zero, neg_pos, asymm h]

/-! ## C3: visualization input guards -/

/-- C3 counterexample: with `data/usa_00001.csv` missing,
`generate_population_pyramid` raises `FileNotFoundError` instead of printing
a warning and returning — so not every visualization function degrades
gracefully on missing inputs. -/
theorem visualization_missing_input_counterexample :
    generatePopulationPyramid (fun c => c) emptyFS = Except.error "FileNotFoundError" := by
  rfl

/-- C3 (amended): the visualization functions that guard their inputs
(`generate_map`, `generate_migration_economic_correlation`) print a warning
and return without writing and without raising when an input is missing, but
`generate_population_pyramid` performs no such check: a missing
`data/usa_00001.csv` raises `FileNotFoundError` out of the function. -/
theorem visualization_missing_input_amended
    (render1 : List String → String) (render2 : String → List String → String)
    (render3 : String → String) (csvFiles popFiles : List String) (fs : FS) :
    (csvFiles.filterMap fs = [] → generateMap render1 csvFiles fs = Except.ok fs) ∧
    (fs "data/puerto_rico_economic/pr_economic_combined.csv" = none →
      generateMigrationEconomicCorrelation render2 popFiles fs = Except.ok fs) ∧
    (popFiles = [] →
      generateMigrationEconomicCorrelation render2 popFiles fs = Except.ok fs) ∧
    (fs "data/usa_00001.csv" = none →
      generatePopulationPyramid render3 fs = Except.error "FileNotFoundError") := by
  refine ⟨?_, ?_, ?_, ?_⟩
  · intro h
    simp [generateMap, h]
  · intro h
    simp [generateMigrationEconomicCorrelation, h]
  · intro h
    subst h
    unfold generateMigrationEconomicCorrelation
    cases fs "data/puerto_rico_economic/pr_economic_combined.csv" <;> simp
  · intro h
    simp [generatePopulationPyramid, h]

/-- Witness for C3 (amended) on the empty filesystem. -/
theorem visualization_missing_input_amended_witness :
    generateMap (fun _ => "") [] emptyFS = Except.ok emptyFS ∧
    generateMigrationEconomicCorrelation (fun _ _ => "") [] emptyFS = Except.ok emptyFS ∧
    generatePopulationPyramid (fun c => c) emptyFS = Except.error "FileNotFoundError" := by
  have h := visualization_missing_input_amended (fun _ => "") (fun _ _ => "")
    (fun c => c) [] [] emptyFS
  exact ⟨h.1 rfl, h.2.1 rfl, h.2.2.2 rfl⟩

/-! ## C4: output keys -/

/-- C4 counterexample: the scripts never deduplicate, so a successfully parsed
response that repeats a geography produces an output table with a duplicate
`(year, geography)` key. -/
theorem no_duplicate_keys_counterexample :
    parseTable dupJson 2010 ≠ none ∧ ¬ (censusRowKeys dupJson 2010).Nodup := by
  exact ⟨by decide, by decide⟩

/-- C4 (amended): the written table has exactly one row (hence one key) per
response data row, and its `(year, geography)` keys are duplicate-free exactly
when the response's geography entries are — uniqueness is inherited from the
API response, not enforced by the script. -/
theorem no_duplicate_keys_amended (json : List (List String)) (year : ℕ) (t : Table)
    (hp : parseTable json year = some t) :
    t.rows.length = (censusRowKeys json year).length ∧
    ((censusRowKeys json year).Nodup ↔ (json.tail.map (fun r => r.get? 2)).Nodup) := by
  obtain ⟨h, rs, rfl⟩ : ∃ h rs, json = h :: rs := by
    cases json with
    | nil => simp [parseTable] at hp
    | cons h rs => exact ⟨h, rs, rfl⟩
  constructor
  · rw [parseTable] at hp
    split at hp
    · cases hp
      simp [censusRowKeys]
    · cases hp
  · have hkeys : censusRowKeys (h :: rs) year =
        (List.map (fun r => r.get? 2) (h :: rs).tail).map (fun g => (year, g)) := by
      simp [censusRowKeys, List.map_map, Function.comp]
    rw [hkeys]
    exact List.nodup_map_iff (fun a b hab => (Prod.mk.injEq _ _ _ _ ▸ hab).2)

/-- Witness for C4 (amended) on a duplicate-free response. -/
theorem no_duplicate_keys_amended_witness :
    parseTable goodJson 2010 = some goodTable ∧
    (goodTable.rows.length = (censusRowKeys goodJson 2010).length ∧
      ((censusRowKeys goodJson 2010).Nodup ↔
        (goodJson.tail.map (fun r => r.get? 2)).Nodup)) :=
  ⟨by decide, no_duplicate_keys_amended goodJson 2010 goodTable (by decide)⟩

/-- C6: a successfully parsed per-year response (nonempty JSON matrix whose
data rows match the header width) yields a table with exactly
`json.length - 1` rows, the header names followed by the added `year` column,
and the `year` entry — located right after the `h.length` original columns —
equal to the requested year in every row. -/
theorem parse_json_matrix (json : List (List String)) (year : ℕ)
    (h : List String) (rs : List (List String))
    (hjson : json = h :: rs) (hlen : ∀ r ∈ rs, r.length = h.length) :
    ∃ t : Table, parseTable json year = some t ∧
      t.rows.length = json.length - 1 ∧
      t.header = h ++ ["year"] ∧
      ∀ row ∈ t.rows, row[h.length]? = some (Cell.n year) := by
  subst hjson
  have hall : rs.all (fun r => r.length = h.length) = true := by
    rw [List.all_eq_true]
    intro r hr
    exact decide_eq_true (hlen r hr)
  refine ⟨{ header := h ++ ["year"],
            rows := rs.map (fun r => r.map Cell.s ++ [Cell.n year]) }, ?_, by simp, rfl, ?_⟩
  · simp only [parseTable]
    rw [if_pos hall]
  · intro row hrow
    simp only [List.mem_map] at hrow
    obtain ⟨r, hr, rfl⟩ := hrow
    have hl : (r.map Cell.s).length = h.length := by simp [hlen r hr]
    rw [← hl]
    exact List.getElem?_concat_length _ _

/-- Witness for C6 on a concrete two-row response. -/
theorem parse_json_matrix_witness :
    goodJson = ["NAME", "B03001_005E", "state"] :: [["Ohio", "5", "39"], ["Utah", "7", "49"]] ∧
    (∀ r ∈ [["Ohio", "5", "39"], ["Utah", "7", "49"]],
      r.length = (["NAME", "B03001_005E", "state"] : List String).length) ∧
    ∃ t : Table, parseTable goodJson 2010 = some t ∧
      t.rows.length = goodJson.length - 1 ∧
      t.header = ["NAME", "B03001_005E", "state"] ++ ["year"] ∧
      ∀ row ∈ t.rows,
        row[(["NAME", "B03001_005E", "state"] : List String).length]? = some (Cell.n 2010) :=
  ⟨rfl, by decide,
    parse_json_matrix goodJson 2010 ["NAME", "B03001_005E", "state"]
      [["Ohio", "5", "39"], ["Utah", "7", "49"]] rfl (by decide)⟩

/-! ## Helper lemmas: the per-year loops -/

/-- An unchecked iteration always issues exactly one request, appended in
order. -/
lemma uncheckedYearStep_trace (outFile : ℕ → String) (process : List (List String) → ℕ → Option String)
    (fetch : ℕ → Except String (List (List String))) (y : ℕ) (st : FS × List ℕ) :
    (uncheckedYearStep outFile process fetch y st).2 = st.2 ++ [y] := by
  unfold uncheckedYearStep
  rcases hf : fetch y with e | json
  · simp [hf]
  · rcases hp2 : process json y with _ | out <;> simp [hf, hp2]

/-- An unchecked iteration touches no path other than its own output file. -/
lemma uncheckedYearStep_other (outFile : ℕ → String) (process : List (List String) → ℕ → Option String)
    (fetch : ℕ → Except String (List (List String))) (y : ℕ) (st : FS × List ℕ)
    (p : String) (hp : p ≠ outFile y) :
    (uncheckedYearStep outFile process fetch y st).1 p = st.1 p := by
  unfold uncheckedYearStep
  rcases hf : fetch y with e | json
  · simp [hf]
  · rcases hp2 : process json y with _ | out <;> simp [hf, hp2, fsWrite, hp]

/-- A failed fetch leaves the filesystem untouched: the exception is caught
and the loop moves on. -/
lemma uncheckedYearStep_error (outFile : ℕ → String) (process : List (List String) → ℕ → Option String)
    (fetch : ℕ → Except String (List (List String))) (y : ℕ) (st : FS × List ℕ)
    (e : String) (he : fetch y = .error e) :
    uncheckedYearStep outFile process fetch y st = (st.1, st.2 ++ [y]) := by
  unfold uncheckedYearStep
  rw [he]

/-- The request trace of an unchecked loop is exactly its year list. -/
lemma unchecked_foldl_trace (outFile : ℕ → String) (process : List (List String) → ℕ → Option String)
    (fetch : ℕ → Except String (List (List String))) :
    ∀ (ys : List ℕ) (st : FS × List ℕ),
      (ys.foldl (fun s y => uncheckedYearStep outFile process fetch y s) st).2 = st.2 ++ ys := by
  intro ys
  induction ys with
  | nil => intro st; simp
  | cons y ys ih =>
    intro st
    rw [List.foldl_cons, ih, uncheckedYearStep_trace]
    simp

/-- Folding steps that each preserve the value at path `p` preserves it. -/
lemma foldl_path_invariant (step : ℕ → FS × List ℕ → FS × List ℕ) (p : String) :
    ∀ ys : List ℕ, (∀ y ∈ ys, ∀ st : FS × List ℕ, (step y st).1 p = st.1 p) →
      ∀ st : FS × List ℕ, ((ys.foldl (fun s y => step y s) st).1) p = st.1 p := by
  intro ys
  induction ys with
  | nil => intro _ st; rfl
  | cons y ys ih =>
    intro h st
    rw [List.foldl_cons, ih (fun z hz => h z (List.mem_cons_of_mem _ hz)),
      h y (List.mem_cons_self _ _)]

/-- Distinct years get distinct poverty output files. -/
lemma povertyOutFile_inj :
    ∀ y ∈ censusYears, ∀ z ∈ censusYears, y ≠ z → povertyOutFile y ≠ povertyOutFile z := by
  decide

/-- If no year aborts, the IPUMS loop visits every year in order. -/
lemma ipumsGo_all (oc : IpumsOracle) :
    ∀ ys : List ℕ, (∀ y ∈ ys, ipumsYearOutcome oc y ≠ .aborted) →
      (ipumsGo oc ys).map Prod.fst = ys := by
  intro ys
  induction ys with
  | nil => intro _; rfl
  | cons y ys ih =>
    intro h
    have hy := h y (List.mem_cons_self y ys)
    cases ho : ipumsYearOutcome oc y with
    | aborted => exact absurd ho hy
    | done => simp [ipumsGo, ho, ih (fun z hz => h z (List.mem_cons_of_mem _ hz))]
    | skipped => simp [ipumsGo, ho, ih (fun z hz => h z (List.mem_cons_of_mem _ hz))]

/-- C5 counterexample: when the 1960 extract's status is `'failed'`,
`download_ipums_data` returns from inside the loop, so 1970 and 1980 are
never attempted — the failed year is not "simply skipped". -/
theorem skip_failed_year_counterexample :
    (ipumsRun ipumsFailOracle).map Prod.fst = [1960] ∧ [1960] ≠ ipumsYears :=
  ⟨rfl, by decide⟩

/-- C5 (amended): the Census API scripts catch any per-year fetch or
processing failure, leave the filesystem untouched for that year, and still
issue one request for every year of the range; `download_ipums_data` likewise
continues past exceptions and timeouts, but an extract status of `'failed'`
aborts the whole run, abandoning all later years. -/
theorem skip_failed_year_amended :
    (∀ (process : List (List String) → ℕ → Option String)
        (fetch : ℕ → Except String (List (List String))) (fs : FS) (y : ℕ) (e : String),
        y ∈ censusYears → fetch y = .error e →
        (∀ st : FS × List ℕ,
            uncheckedYearStep povertyOutFile process fetch y st = (st.1, st.2 ++ [y])) ∧
        (povertyRun process fetch fs).1 (povertyOutFile y) = fs (povertyOutFile y) ∧
        (povertyRun process fetch fs).2 = censusYears) ∧
    (∀ oc : IpumsOracle, (∀ y ∈ ipumsYears, ipumsYearOutcome oc y ≠ .aborted) →
        (ipumsRun oc).map Prod.fst = ipumsYears) ∧
    (∀ oc : IpumsOracle, ipumsYearOutcome oc 1960 = .aborted →
        ipumsRun oc = [(1960, .aborted)]) := by
  refine ⟨?_, ?_, ?_⟩
  · intro process fetch fs y e hy he
    refine ⟨fun st => uncheckedYearStep_error _ _ _ _ _ _ he, ?_, ?_⟩
    · unfold povertyRun scriptRun
      apply foldl_path_invariant
      intro z hz st
      by_cases hzy : z = y
      · subst hzy
        rw [uncheckedYearStep_error _ _ _ _ _ _ he]
      · exact uncheckedYearStep_other _ _ _ _ _ _
          (povertyOutFile_inj y hy z hz (Ne.symm hzy))
    · unfold povertyRun scriptRun
      rw [unchecked_foldl_trace]
      simp
  · intro oc h
    exact ipumsGo_all oc ipumsYears h
  · intro oc h
    simp [ipumsRun, ipumsYears, ipumsGo, h]

/-- Witness for C5 (amended) at year 2010 with an always-failing fetch, and
the always-failing IPUMS oracle. -/
theorem skip_failed_year_amended_witness :
    (2010 ∈ censusYears ∧ errFetch 2010 = .error "HTTP Error") ∧
    ((∀ st : FS × List ℕ,
        uncheckedYearStep povertyOutFile noneProcess errFetch 2010 st = (st.1, st.2 ++ [2010])) ∧
      (povertyRun noneProcess errFetch emptyFS).1 (povertyOutFile 2010) =
        emptyFS (povertyOutFile 2010) ∧
      (povertyRun noneProcess errFetch emptyFS).2 = censusYears) ∧
    (ipumsYearOutcome ipumsFailOracle 1960 = .aborted ∧
      ipumsRun ipumsFailOracle = [(1960, .aborted)]) :=
  ⟨⟨by decide, rfl⟩,
    skip_failed_year_amended.1 noneProcess errFetch emptyFS 2010 "HTTP Error" (by decide) rfl,
    rfl, skip_failed_year_amended.2.2 ipumsFailOracle rfl⟩

/-- C7: in every run of `download_census_data` / `download_poverty_data`, the
per-year requests are issued by sequential iteration over exactly the years
2010 through 2023 in strictly increasing order, one request per year. -/
theorem sequential_year_iteration (process : List (List String) → ℕ → Option String)
    (fetch : ℕ → Except String (List (List String))) (fs : FS) :
    (censusRun process fetch fs).2 = censusYears ∧
    (povertyRun process fetch fs).2 = censusYears ∧
    List.Chain' (fun a b => a < b) censusYears ∧
    censusYears.Nodup ∧
    censusYears.head? = some 2010 ∧
    censusYears.getLast? = some 2023 ∧
    ∀ y ∈ censusYears, 2010 ≤ y ∧ y ≤ 2023 := by
  refine ⟨?_, ?_, ?_, by decide, by decide, by decide, by decide⟩
  · unfold censusRun scriptRun
    rw [unchecked_foldl_trace]
    simp
  · unfold povertyRun scriptRun
    rw [unchecked_foldl_trace]
    simp
  · rw [List.chain'_iff_pairwise]
    decide

/-! ## Helper lemmas: `weighted_median` -/

lemma wmTotal_cons (p : ℚ × ℚ) (rest : List (ℚ × ℚ)) :
    wmTotal (p :: rest) = p.2 + wmTotal rest := by
  simp [wmTotal]

lemma wmCum_cons (p : ℚ × ℚ) (rest : List (ℚ × ℚ)) (v : ℚ) :
    wmCum (p :: rest) v = (if p.1 ≤ v then p.2 else 0) + wmCum rest v := by
  by_cases h : p.1 ≤ v <;> simp [wmCum, List.filter_cons, h]

lemma wmCum_nonneg (s : List (ℚ × ℚ)) (v : ℚ) (hw : ∀ p ∈ s, 0 < p.2) :
    0 ≤ wmCum s v := by
  apply List.sum_nonneg
  intro x hx
  simp only [List.mem_map, List.mem_filter] at hx
  obtain ⟨p, ⟨hp, _⟩, rfl⟩ := hx
  exact (hw p hp).le

/-- The value `wmFind` returns comes from the list. -/
lemma wmFind_mem (half : ℚ) (s : List (ℚ × ℚ)) : ∀ acc v : ℚ,
    wmFind half acc s = some v → v ∈ s.map Prod.fst := by
  induction s with
  | nil => intro acc v hv; simp [wmFind] at hv
  | cons p rest ih =>
    intro acc v hv
    simp only [wmFind] at hv
    by_cases hc : half ≤ acc + p.2
    · rw [if_pos hc] at hv
      obtain rfl : p.1 = v := Option.some.inj hv
      simp
    · rw [if_neg hc] at hv
      rw [List.map_cons]
      exact List.mem_cons_of_mem _ (ih _ _ hv)

/-- On a sorted list, the returned value's cumulative weight (plus the weight
already consumed) reaches the threshold. -/
lemma wmFind_ge (half : ℚ) : ∀ (s : List (ℚ × ℚ)) (acc v : ℚ),
    s.Sorted valLE → (∀ p ∈ s, 0 < p.2) → wmFind half acc s = some v →
    half ≤ acc + wmCum s v := by
  intro s
  induction s with
  | nil => intro acc v _ _ hv; simp [wmFind] at hv
  | cons p rest ih =>
    intro acc v hs hw hv
    obtain ⟨hp, hrest⟩ := List.sorted_cons.mp hs
    have hw_rest : ∀ q ∈ rest, 0 < q.2 := fun q hq => hw q (List.mem_cons_of_mem _ hq)
    simp only [wmFind] at hv
    by_cases hc : half ≤ acc + p.2
    · rw [if_pos hc] at hv
      obtain rfl : p.1 = v := Option.some.inj hv
      rw [wmCum_cons, if_pos le_rfl]
      have h0 : 0 ≤ wmCum rest p.1 := wmCum_nonneg rest p.1 hw_rest
      linarith
    · rw [if_neg hc] at hv
      have hmem := wmFind_mem half rest (acc + p.2) v hv
      have hpv : p.1 ≤ v := by
        obtain ⟨q, hq, rfl⟩ := List.mem_map.mp hmem
        exact hp q hq
      have hrec := ih (acc + p.2) v hrest hw_rest hv
      rw [wmCum_cons, if_pos hpv]
      linarith

/-- On a sorted list, every strictly smaller value than the returned one has
cumulative weight below the threshold: the code returns the *first* value
crossing it. -/
lemma wmFind_lt (half : ℚ) : ∀ (s : List (ℚ × ℚ)) (acc v : ℚ),
    s.Sorted valLE → wmFind half acc s = some v →
    ∀ u ∈ s.map Prod.fst, u < v → acc + wmCum s u < half := by
  intro s
  induction s with
  | nil => intro acc v _ hv; simp [wmFind] at hv
  | cons p rest ih =>
    intro acc v hs hv u hu huv
    obtain ⟨hp, hrest⟩ := List.sorted_cons.mp hs
    simp only [wmFind] at hv
    by_cases hc : half ≤ acc + p.2
    · rw [if_pos hc] at hv
      obtain rfl : p.1 = v := Option.some.inj hv
      rw [List.map_cons, List.mem_cons] at hu
      rcases hu with rfl | hu
      · exact absurd huv (lt_irrefl _)
      · obtain ⟨q, hq, rfl⟩ := List.mem_map.mp hu
        exact absurd huv (not_lt.mpr (hp q hq))
    · rw [if_neg hc] at hv
      have hc' : acc + p.2 < half := not_le.mp hc
      rw [List.map_cons, List.mem_cons] at hu
      rw [wmCum_cons]
      rcases hu with rfl | hu
      · rw [if_pos le_rfl]
        by_cases hmem : p.1 ∈ rest.map Prod.fst
        · have hrec := ih (acc + p.2) v hrest hv p.1 hmem huv
          linarith
        · have hzero : wmCum rest p.1 = 0 := by
            have hnil : rest.filter (fun q => q.1 ≤ p.1) = [] := by
              rw [List.filter_eq_nil_iff]
              intro q hq
              simp only [decide_eq_true_eq]
              intro hle
              exact hmem (List.mem_map.mpr ⟨q, hq, le_antisymm hle (hp q hq)⟩)
            simp [wmCum, hnil]
          rw [hzero]
          linarith
      · obtain ⟨q, hq, rfl⟩ := List.mem_map.mp hu
        have hple : p.1 ≤ q.1 := hp q hq
        rw [if_pos hple]
        have hrec := ih (acc + p.2) v hrest hv q.1 (List.mem_map.mpr ⟨q, hq, rfl⟩) huv
        linarith

/-- On a nonempty list whose total weight lies above the threshold minus the
consumed weight, `wmFind` finds a value (the code's `.index[0]` does not
raise). -/
lemma wmFind_some (half : ℚ) : ∀ (s : List (ℚ × ℚ)) (acc : ℚ),
    s ≠ [] → half ≤ acc + wmTotal s → ∃ v, wmFind half acc s = some v := by
  intro s
  induction s with
  | nil => intro acc h; exact absurd rfl h
  | cons p rest ih =>
    intro acc _ htot
    by_cases hc : half ≤ acc + p.2
    · exact ⟨p.1, by simp [wmFind, hc]⟩
    · by_cases hne : rest = []
      · subst hne
        rw [wmTotal_cons] at htot
        simp [wmTotal] at htot
        exact absurd htot hc
      · rw [wmTotal_cons] at htot
        obtain ⟨v, hv⟩ := ih (acc + p.2) hne (by linarith)
        refine ⟨v, ?_⟩
        simp only [wmFind]
        rw [if_neg hc]
        exact hv

/-- C8: for every nonempty series with strictly positive weights,
`weighted_median` returns the smallest value whose cumulative weight (the
total weight of entries with value at most it) reaches half the total weight;
in particular the returned value is an element of the input series. -/
theorem weighted_median_spec (l : List (ℚ × ℚ)) (hne : l ≠ [])
    (hw : ∀ p ∈ l, 0 < p.2) :
    ∃ v, weighted_median l = some v ∧ v ∈ l.map Prod.fst ∧
      wmTotal l / 2 ≤ wmCum l v ∧
      ∀ u ∈ l.map Prod.fst, wmTotal l / 2 ≤ wmCum l u → v ≤ u := by
  have hperm : (List.insertionSort valLE l).Perm l := List.perm_insertionSort valLE l
  have hsorted : (List.insertionSort valLE l).Sorted valLE :=
    List.sorted_insertionSort valLE l
  have hw_s : ∀ p ∈ List.insertionSort valLE l, 0 < p.2 :=
    fun p hp => hw p (hperm.mem_iff.mp hp)
  have htot_eq : wmTotal (List.insertionSort valLE l) = wmTotal l :=
    (hperm.map Prod.snd).sum_eq
  have hcum_eq : ∀ v, wmCum (List.insertionSort valLE l) v = wmCum l v := by
    intro v
    unfold wmCum
    exact ((hperm.filter (fun q : ℚ × ℚ => decide (q.1 ≤ v))).map Prod.snd).sum_eq
  have hs_ne : List.insertionSort valLE l ≠ [] := by
    intro h
    apply hne
    have hlen := hperm.length_eq
    rw [h] at hlen
    exact List.eq_nil_of_length_eq_zero hlen.symm
  have h0tot : 0 ≤ wmTotal (List.insertionSort valLE l) := by
    apply List.sum_nonneg
    intro x hx
    obtain ⟨p, hp, rfl⟩ := List.mem_map.mp hx
    exact (hw_s p hp).le
  obtain ⟨v, hv⟩ := wmFind_some (wmTotal (List.insertionSort valLE l) / 2)
    (List.insertionSort valLE l) 0 hs_ne (by linarith)
  refine ⟨v, hv, ?_, ?_, ?_⟩
  · exact (hperm.map Prod.fst).mem_iff.mp
      (wmFind_mem _ (List.insertionSort valLE l) 0 v hv)
  · have hge := wmFind_ge _ (List.insertionSort valLE l) 0 v hsorted hw_s hv
    rw [hcum_eq v, htot_eq] at hge
    linarith
  · intro u hu hcu
    by_contra hvu
    have hu_s : u ∈ (List.insertionSort valLE l).map Prod.fst :=
      (hperm.map Prod.fst).mem_iff.mpr hu
    have hlt := wmFind_lt _ (List.insertionSort valLE l) 0 v hsorted hv u hu_s
      (not_le.mp hvu)
    rw [hcum_eq u, htot_eq] at hlt
    linarith

/-- Witness for C8 on the three-point series `(3,1), (1,1), (2,1)`
(median 2). -/
theorem weighted_median_spec_witness :
    ([((3:ℚ), (1:ℚ)), (1, 1), (2, 1)] ≠ ([] : List (ℚ × ℚ))) ∧
    (∀ p ∈ [((3:ℚ), (1:ℚ)), (1, 1), (2, 1)], 0 < p.2) ∧
    ∃ v, weighted_median [((3:ℚ), (1:ℚ)), (1, 1), (2, 1)] = some v ∧
      v ∈ ([((3:ℚ), (1:ℚ)), (1, 1), (2, 1)]).map Prod.fst ∧
      wmTotal [((3:ℚ), (1:ℚ)), (1, 1), (2, 1)] / 2 ≤
        wmCum [((3:ℚ), (1:ℚ)), (1, 1), (2, 1)] v ∧
      ∀ u ∈ ([((3:ℚ), (1:ℚ)), (1, 1), (2, 1)]).map Prod.fst,
        wmTotal [((3:ℚ), (1:ℚ)), (1, 1), (2, 1)] / 2 ≤
          wmCum [((3:ℚ), (1:ℚ)), (1, 1), (2, 1)] u → v ≤ u :=
  ⟨by simp, by decide, weighted_median_spec _ (by simp) (by decide)⟩

/-! ## Helper lemmas: the existence-checked loops -/

/-- When the output file exists the iteration is a no-op: no request, no
write (the `continue` at `download_county_data.py` line 25). -/
lemma checkedYearStep_skip (outFile : ℕ → String)
    (process : List (List String) → ℕ → Option String)
    (fetch : ℕ → Except String (List (List String))) (y : ℕ) (st : FS × List ℕ)
    (h : (st.1 (outFile y)).isSome) :
    checkedYearStep outFile process fetch y st = st := by
  unfold checkedYearStep
  rw [if_pos h]

/-- A checked iteration touches no path other than its own output file. -/
lemma checkedYearStep_other (outFile : ℕ → String)
    (process : List (List String) → ℕ → Option String)
    (fetch : ℕ → Except String (List (List String))) (y : ℕ) (st : FS × List ℕ)
    (p : String) (hp : p ≠ outFile y) :
    (checkedYearStep outFile process fetch y st).1 p = st.1 p := by
  unfold checkedYearStep
  by_cases h : (st.1 (outFile y)).isSome
  · rw [if_pos h]
  · rw [if_neg h]
    exact uncheckedYearStep_other _ _ _ _ _ _ hp

/-- A checked iteration's trace either stays put (skip) or appends its own
year. -/
lemma checkedYearStep_trace_sub (outFile : ℕ → String)
    (process : List (List String) → ℕ → Option String)
    (fetch : ℕ → Except String (List (List String))) (y : ℕ) (st : FS × List ℕ) :
    (checkedYearStep outFile process fetch y st).2 = st.2 ∨
      (checkedYearStep outFile process fetch y st).2 = st.2 ++ [y] := by
  unfold checkedYearStep
  by_cases h : (st.1 (outFile y)).isSome
  · rw [if_pos h]
    exact Or.inl rfl
  · rw [if_neg h]
    exact Or.inr (uncheckedYearStep_trace _ _ _ _ _)

/-- Folding a checked loop over years whose output files are distinct from
year `y`'s: if `y`'s file exists at the start, it is never touched and `y` is
never requested. -/
lemma checked_foldl_skip (outFile : ℕ → String)
    (process : List (List String) → ℕ → Option String)
    (fetch : ℕ → Except String (List (List String))) (y : ℕ) :
    ∀ ys : List ℕ, (∀ z ∈ ys, z ≠ y → outFile z ≠ outFile y) →
      ∀ st : FS × List ℕ, (st.1 (outFile y)).isSome → y ∉ st.2 →
        ((ys.foldl (fun s z => checkedYearStep outFile process fetch z s) st).1 (outFile y)
            = st.1 (outFile y)) ∧
          y ∉ (ys.foldl (fun s z => checkedYearStep outFile process fetch z s) st).2 := by
  intro ys
  induction ys with
  | nil => intro _ st _ hnot; exact ⟨rfl, hnot⟩
  | cons z zs ih =>
    intro hdist st hsome hnot
    rw [List.foldl_cons]
    by_cases hzy : z = y
    · subst hzy
      rw [checkedYearStep_skip _ _ _ _ _ hsome]
      exact ih (fun w hw => hdist w (List.mem_cons_of_mem _ hw)) st hsome hnot
    · have hpath : outFile y ≠ outFile z :=
        Ne.symm (hdist z (List.mem_cons_self _ _) hzy)
      have h1 : (checkedYearStep outFile process fetch z st).1 (outFile y)
          = st.1 (outFile y) := checkedYearStep_other _ _ _ _ _ _ hpath
      have h2 : y ∉ (checkedYearStep outFile process fetch z st).2 := by
        rcases checkedYearStep_trace_sub outFile process fetch z st with h | h <;> rw [h]
        · exact hnot
        · simp only [List.mem_append, List.mem_singleton]
          rintro (h' | rfl)
          · exact hnot h'
          · exact hzy rfl
      obtain ⟨ha, hb⟩ := ih (fun w hw => hdist w (List.mem_cons_of_mem _ hw))
        (checkedYearStep outFile process fetch z st) (by rw [h1]; exact hsome) h2
      exact ⟨by rw [ha, h1], hb⟩

/-- Distinct years get distinct county output files. -/
lemma countyOutFile_inj :
    ∀ z ∈ censusYears, ∀ y ∈ censusYears, z ≠ y → countyOutFile z ≠ countyOutFile y := by
  decide

/-- Distinct years get distinct commuting output files. -/
lemma commutingOutFile_inj :
    ∀ z ∈ censusYears, ∀ y ∈ censusYears, z ≠ y → commutingOutFile z ≠ commutingOutFile y := by
  decide

/-- Distinct years get distinct language output files. -/
lemma languageOutFile_inj :
    ∀ z ∈ censusYears, ∀ y ∈ censusYears, z ≠ y → languageOutFile z ≠ languageOutFile y := by
  decide

/-- Distinct years get distinct health-insurance output files. -/
lemma healthInsuranceOutFile_inj :
    ∀ z ∈ censusYears, ∀ y ∈ censusYears, z ≠ y →
      healthInsuranceOutFile z ≠ healthInsuranceOutFile y := by
  decide

/-- C9: for the download scripts that check their per-year output file
(county, commuting, language, health insurance), a year whose file already
exists is skipped: that iteration issues no request and changes nothing, and
over a whole re-run the existing file's contents are unchanged and the year
is never requested. -/
theorem rerun_skips_existing_years (process : List (List String) → ℕ → Option String)
    (fetch : ℕ → Except String (List (List String))) (fs : FS) (y : ℕ)
    (hy : y ∈ censusYears) :
    ((∀ st : FS × List ℕ, (st.1 (countyOutFile y)).isSome →
        checkedYearStep countyOutFile process fetch y st = st) ∧
      ((fs (countyOutFile y)).isSome →
        (countyRun process fetch fs).1 (countyOutFile y) = fs (countyOutFile y) ∧
          y ∉ (countyRun process fetch fs).2)) ∧
    ((∀ st : FS × List ℕ, (st.1 (commutingOutFile y)).isSome →
        checkedYearStep commutingOutFile process fetch y st = st) ∧
      ((fs (commutingOutFile y)).isSome →
        (commutingRun process fetch fs).1 (commutingOutFile y) = fs (commutingOutFile y) ∧
          y ∉ (commutingRun process fetch fs).2)) ∧
    ((∀ st : FS × List ℕ, (st.1 (languageOutFile y)).isSome →
        checkedYearStep languageOutFile process fetch y st = st) ∧
      ((fs (languageOutFile y)).isSome →
        (languageRun process fetch fs).1 (languageOutFile y) = fs (languageOutFile y) ∧
          y ∉ (languageRun process fetch fs).2)) ∧
    ((∀ st : FS × List ℕ, (st.1 (healthInsuranceOutFile y)).isSome →
        checkedYearStep healthInsuranceOutFile process fetch y st = st) ∧
      ((fs (healthInsuranceOutFile y)).isSome →
        (healthInsuranceRun process fetch fs).1 (healthInsuranceOutFile y) =
            fs (healthInsuranceOutFile y) ∧
          y ∉ (healthInsuranceRun process fetch fs).2)) := by
  refine ⟨⟨fun st h => checkedYearStep_skip _ _ _ _ _ h, fun h => ?_⟩,
    ⟨fun st h => checkedYearStep_skip _ _ _ _ _ h, fun h => ?_⟩,
    ⟨fun st h => checkedYearStep_skip _ _ _ _ _ h, fun h => ?_⟩,
    ⟨fun st h => checkedYearStep_skip _ _ _ _ _ h, fun h => ?_⟩⟩
  · unfold countyRun scriptRun
    exact checked_foldl_skip countyOutFile process fetch y censusYears
      (fun z hz hzy => countyOutFile_inj z hz y hy hzy) (fs, []) h (List.not_mem_nil y)
  · unfold commutingRun scriptRun
    exact checked_foldl_skip commutingOutFile process fetch y censusYears
      (fun z hz hzy => commutingOutFile_inj z hz y hy hzy) (fs, []) h (List.not_mem_nil y)
  · unfold languageRun scriptRun
    exact checked_foldl_skip languageOutFile process fetch y censusYears
      (fun z hz hzy => languageOutFile_inj z hz y hy hzy) (fs, []) h (List.not_mem_nil y)
  · unfold healthInsuranceRun scriptRun
    exact checked_foldl_skip healthInsuranceOutFile process fetch y censusYears
      (fun z hz hzy => healthInsuranceOutFile_inj z hz y hy hzy) (fs, []) h
      (List.not_mem_nil y)

/-- Witness for C9 at year 2010 on `preloadedFS`. -/
theorem rerun_skips_existing_years_witness :
    checkedYearStep countyOutFile noneProcess errFetch 2010 (preloadedFS, []) =
      (preloadedFS, []) ∧
    ((countyRun noneProcess errFetch preloadedFS).1 (countyOutFile 2010) =
        preloadedFS (countyOutFile 2010) ∧
      2010 ∉ (countyRun noneProcess errFetch preloadedFS).2) ∧
    ((commutingRun noneProcess errFetch preloadedFS).1 (commutingOutFile 2010) =
        preloadedFS (commutingOutFile 2010) ∧
      2010 ∉ (commutingRun noneProcess errFetch preloadedFS).2) ∧
    ((languageRun noneProcess errFetch preloadedFS).1 (languageOutFile 2010) =
        preloadedFS (languageOutFile 2010) ∧
      2010 ∉ (languageRun noneProcess errFetch preloadedFS).2) ∧
    ((healthInsuranceRun noneProcess errFetch preloadedFS).1 (healthInsuranceOutFile 2010) =
        preloadedFS (healthInsuranceOutFile 2010) ∧
      2010 ∉ (healthInsuranceRun noneProcess errFetch preloadedFS).2) :=
  ⟨(rerun_skips_existing_years noneProcess errFetch preloadedFS 2010 (by decide)).1.1
      (preloadedFS, []) (by decide),
    (rerun_skips_existing_years noneProcess errFetch preloadedFS 2010 (by decide)).1.2
      (by decide),
    (rerun_skips_existing_years noneProcess errFetch preloadedFS 2010 (by decide)).2.1.2
      (by decide),
    (rerun_skips_existing_years noneProcess errFetch preloadedFS 2010 (by decide)).2.2.1.2
      (by decide),
    (rerun_skips_existing_years noneProcess errFetch preloadedFS 2010 (by decide)).2.2.2.2
      (by decide)⟩

/-! ## C10: `generate_map` preprocessing -/

/-- A successful dictionary lookup pins an entry of the dictionary. -/
lemma lookup_mem : ∀ (l : List (String × String)) (k v : String),
    l.lookup k = some v → (k, v) ∈ l := by
  intro l
  induction l with
  | nil => intro k v h; simp [List.lookup] at h
  | cons p rest ih =>
    intro k v h
    obtain ⟨a, b⟩ := p
    simp only [List.lookup] at h
    cases hbeq : (k == a) with
    | true =>
      rw [hbeq] at h
      simp only [] at h
      obtain rfl : b = v := Option.some.inj h
      have hka : k = a := eq_of_beq hbeq
      rw [hka]
      exact List.mem_cons_self _ _
    | false =>
      rw [hbeq] at h
      simp only [] at h
      exact List.mem_cons_of_mem _ (ih k v h)

/-- Every non-Puerto-Rico entry of the dictionary carries a two-letter code
other than `"PR"`, listed among the 50-states-plus-DC codes. -/
lemma abbrev_catalog :
    ∀ p ∈ us_state_to_abbrev, p.1 ≠ "Puerto Rico" →
      p.2 ≠ "PR" ∧ p.2.length = 2 ∧
        p.2 ∈ (us_state_to_abbrev.filter (fun q => q.1 ≠ "Puerto Rico")).map Prod.snd := by
  decide

/-- C10: every row of the frame handed to the choropleth has a state other
than Puerto Rico and a `StateCode` that is a two-letter abbreviation from the
50-states-plus-DC part of the fixed mapping; every input row whose state name
has no mapping is dropped before plotting. -/
theorem map_rows_mainland_only (rows : List MapRow) :
    (∀ r ∈ mapDf rows, r.State ≠ "Puerto Rico" ∧
      ∃ c, stateCode r = some c ∧ c ≠ "PR" ∧ c.length = 2 ∧
        c ∈ (us_state_to_abbrev.filter (fun q => q.1 ≠ "Puerto Rico")).map Prod.snd) ∧
    ∀ r ∈ rows, stateCode r = none → r ∉ mapDf rows := by
  have hmem : ∀ r : MapRow, r ∈ mapDf rows ↔
      r ∈ (rows.filter (fun r => r.State ≠ "Puerto Rico")).filter
        (fun r => (stateCode r).isSome) := by
    intro r
    unfold mapDf
    exact (List.perm_insertionSort mapYearLE _).mem_iff
  constructor
  · intro r hr
    rw [hmem, List.mem_filter] at hr
    obtain ⟨hr1, hsome⟩ := hr
    rw [List.mem_filter] at hr1
    obtain ⟨_, hnpr⟩ := hr1
    have hnpr' : r.State ≠ "Puerto Rico" := of_decide_eq_true hnpr
    obtain ⟨c, hc⟩ := Option.isSome_iff_exists.mp hsome
    have hpair := lookup_mem us_state_to_abbrev r.State c hc
    have hcat := abbrev_catalog (r.State, c) hpair hnpr'
    exact ⟨hnpr', c, hc, hcat.1, hcat.2.1, hcat.2.2⟩
  · intro r _ hnone hmem2
    rw [hmem, List.mem_filter] at hmem2
    have hsome := hmem2.2
    rw [hnone] at hsome
    simp at hsome

/-- Witness for C10: the Ohio row survives with code `"OH"`; the unmapped
`"Atlantis"` row is dropped. -/
theorem map_rows_mainland_only_witness :
    ((⟨"Ohio", 5, 2010⟩ : MapRow) ∈ mapDf mapRows0 ∧
      (⟨"Ohio", 5, 2010⟩ : MapRow).State ≠ "Puerto Rico" ∧
      (∃ c, stateCode ⟨"Ohio", 5, 2010⟩ = some c ∧ c ≠ "PR" ∧ c.length = 2 ∧
        c ∈ (us_state_to_abbrev.filter (fun q => q.1 ≠ "Puerto Rico")).map Prod.snd)) ∧
    ((⟨"Atlantis", 1, 2010⟩ : MapRow) ∈ mapRows0 ∧
      stateCode ⟨"Atlantis", 1, 2010⟩ = none ∧
      (⟨"Atlantis", 1, 2010⟩ : MapRow) ∉ mapDf mapRows0) :=
  ⟨⟨by decide,
      ((map_rows_mainland_only mapRows0).1 ⟨"Ohio", 5, 2010⟩ (by decide)).1,
      ((map_rows_mainland_only mapRows0).1 ⟨"Ohio", 5, 2010⟩ (by decide)).2⟩,
    ⟨by decide, by decide,
      (map_rows_mainland_only mapRows0).2 ⟨"Atlantis", 1, 2010⟩ (by decide) (by decide)⟩⟩
